import Mathlib

/-!
Verification of the file-identifier translation layer of the repository
(`telegram_bot.py`, class `BotFileIdConverter`): the Bot-API file-id decoder
(`decode_bot_file_id`), the Telethon locator synthesizer
(`convert_to_telethon_location`) and the diagnostic analyzer
(`analyze_bot_file_id`), embedded shallowly over lists of bytes (`Nat < 256`)
and Lean `String`s.

The decoder calls Python's `base64.b64decode(s)` (default arguments, i.e.
`validate=False`), whose semantics is `binascii.a2b_base64` in non-strict
mode: characters outside the standard base64 alphabet are discarded, `=`
terminates a quad once at least two data characters of it have been seen and
enough pads accumulated, and a trailing partial quad of 1 data character
(mod 4) or 2-3 data characters without sufficient padding is an error.
That semantics is embedded below as `a2bBase64`.
-/

/-- Value of a character in the standard base64 alphabet (`A-Z a-z 0-9 + /`),
or `none` for any other character, as in `binascii`'s `table_a2b_base64`. -/
def b64CharValue (c : Char) : Option Nat :=
  if 'A' ≤ c ∧ c ≤ 'Z' then some (c.toNat - 65)
  else if 'a' ≤ c ∧ c ≤ 'z' then some (c.toNat - 97 + 26)
  else if '0' ≤ c ∧ c ≤ '9' then some (c.toNat - 48 + 52)
  else if c = '+' then some 62
  else if c = '/' then some 63
  else none

/-- Main loop of `binascii.a2b_base64` in non-strict mode (CPython 3.10+).
State: `quadPos` (position inside the current 4-character group),
`leftchar` (bits carried over from the previous character), `pads`
(consecutive pad count towards finishing the current quad), `acc`
(output bytes, reversed).  Returns `none` on a decode error. -/
def a2bBase64Loop : List Char → Nat → Nat → Nat → List Nat → Option (List Nat)
  | [], quadPos, _, _, acc =>
      -- a trailing partial quad (1 char, or 2-3 chars without padding) is an error
      if quadPos = 0 then some acc.reverse else none
  | c :: rest, quadPos, leftchar, pads, acc =>
      if c = '=' then
        if 2 ≤ quadPos then
          if 4 ≤ quadPos + (pads + 1) then some acc.reverse
          else a2bBase64Loop rest quadPos leftchar (pads + 1) acc
        else a2bBase64Loop rest quadPos leftchar pads acc
      else
        match b64CharValue c with
        | none => a2bBase64Loop rest quadPos leftchar pads acc
        | some v =>
          match quadPos with
          | 0 => a2bBase64Loop rest 1 v 0 acc
          | 1 => a2bBase64Loop rest 2 (v % 16) 0 ((leftchar * 4 + v / 16) :: acc)
          | 2 => a2bBase64Loop rest 3 (v % 4) 0 ((leftchar * 16 + v / 4) :: acc)
          | _ => a2bBase64Loop rest 0 0 0 ((leftchar * 64 + v) :: acc)

/-- `binascii.a2b_base64(s)` in non-strict mode. -/
def a2bBase64 (s : List Char) : Option (List Nat) :=
  a2bBase64Loop s 0 0 0 []

/-- Python's `base64.b64decode(s)` on a `str` argument with default
parameters: the string must be pure ASCII (`s.encode('ascii')`), then
`binascii.a2b_base64` runs in non-strict mode. -/
def pyB64Decode (s : List Char) : Option (List Nat) :=
  if s.all (fun c => c.toNat ≤ 127) then a2bBase64 s else none

/-- Padding correction of `decode_bot_file_id`:
`missing_padding = len(file_id) % 4; if missing_padding: file_id += '=' * (4 - missing_padding)`. -/
def addPadding (s : List Char) : List Char :=
  let missing_padding := s.length % 4
  if missing_padding = 0 then s else s ++ List.replicate (4 - missing_padding) '='

/-- Little-endian unsigned integer of a byte list: models `struct.unpack('<I', _)`,
`struct.unpack('<Q', _)` and `int.from_bytes(_, 'little')` on the given slice. -/
def leNat : List Nat → Nat
  | [] => 0
  | b :: rest => b + 256 * leNat rest

/-- Decode errors of `decode_bot_file_id` (spec taxonomy; in the source both
are raised as `ValueError` with distinct messages). `tooShort` carries the
decoded byte length from `Invalid file_id length: {n} bytes (minimum 20)`. -/
inductive DecodeError
  | invalidEncoding
  | tooShort (n : Nat)
  deriving DecidableEq, Repr

/-- The dict returned by `decode_bot_file_id`. -/
structure DecodedRecord where
  file_type : Nat
  file_type_flags : Nat
  dc_id : Nat
  file_id : Nat
  file_id_2 : Nat
  access_hash : Nat
  raw_data : List Nat
  deriving DecidableEq, Repr

/-- `BotFileIdConverter.decode_bot_file_id`, translated clause by clause:
pad to a multiple of 4, `base64.b64decode`, enforce the 20-byte floor, then
extract the little-endian fields at the fixed offsets. -/
def decode_bot_file_id (file_id : String) : Except DecodeError DecodedRecord :=
  match pyB64Decode (addPadding file_id.data) with
  | none => .error .invalidEncoding
  | some decoded =>
    if decoded.length < 20 then .error (.tooShort decoded.length)
    else
      let file_type_flags := leNat (decoded.take 4)                -- struct.unpack('<I', decoded[0:4])
      let dc_id := leNat ((decoded.drop 4).take 4)                 -- struct.unpack('<I', decoded[4:8])
      let file_id_part1 :=
        if 24 ≤ decoded.length then leNat ((decoded.drop 8).take 8)
        else if 16 ≤ decoded.length then leNat ((decoded.drop 8).take 8) else 0
      let file_id_part2 :=
        if 24 ≤ decoded.length then leNat ((decoded.drop 16).take 8) else 0
      let access_hash_bytes := if 24 < decoded.length then decoded.drop 24 else []
      let access_hash :=
        if 8 ≤ access_hash_bytes.length then leNat (access_hash_bytes.take 8)
        else if 0 < access_hash_bytes.length then leNat access_hash_bytes
        else 0
      let file_type := file_type_flags &&& 0x7
      .ok { file_type := file_type, file_type_flags := file_type_flags,
            dc_id := dc_id, file_id := file_id_part1, file_id_2 := file_id_part2,
            access_hash := access_hash, raw_data := decoded }

/-- Synthesis errors of `convert_to_telethon_location` (spec taxonomy; the
source raises `ValueError` with distinct messages for each). -/
inductive SynthesisError
  | decodeFailed (e : DecodeError)
  | invalidAccessHash
  | unsupportedFileType (t : Nat)
  deriving DecidableEq, Repr

/-- The Telethon `InputFileLocation` variants the synthesizer produces. -/
inductive InputFileLocation
  | photo (id : Nat) (access_hash : Nat) (file_reference : List Nat)
  | document (id : Nat) (access_hash : Nat) (file_reference : List Nat)
  deriving DecidableEq, Repr

/-- The `access_hash` field of either locator variant. -/
def InputFileLocation.accessHash : InputFileLocation → Nat
  | .photo _ h _ => h
  | .document _ h _ => h

/-- Body of `convert_to_telethon_location` after the decode call: reject a
zero access hash, then dispatch on `file_type` (1 → photo; 2,3,4,5 →
document; otherwise unsupported). -/
def locate_decoded (d : DecodedRecord) : Except SynthesisError InputFileLocation :=
  if d.access_hash = 0 then .error .invalidAccessHash
  else if d.file_type = 1 then
    .ok (.photo d.file_id d.access_hash [])
  else if d.file_type = 2 ∨ d.file_type = 3 ∨ d.file_type = 4 ∨ d.file_type = 5 then
    .ok (.document d.file_id d.access_hash [])
  else .error (.unsupportedFileType d.file_type)

/-- `BotFileIdConverter.convert_to_telethon_location`: decode, then locate. -/
def convert_to_telethon_location (file_id : String) : Except SynthesisError InputFileLocation :=
  match decode_bot_file_id file_id with
  | .error e => .error (.decodeFailed e)
  | .ok d => locate_decoded d

/-- The `file_type_names` dict of `analyze_bot_file_id`. -/
def file_type_names (t : Nat) : Option String :=
  if t = 1 then some "Photo"
  else if t = 2 then some "Document (Sticker)"
  else if t = 3 then some "Document (Audio)"
  else if t = 4 then some "Document (Video)"
  else if t = 5 then some "Document (Other)"
  else none

/-- `file_type_names.get(t, f"Unknown ({t})")`. -/
def fileTypeName (t : Nat) : String :=
  (file_type_names t).getD ("Unknown (" ++ toString t ++ ")")

/-- The dict returned by `analyze_bot_file_id`: either the success report
(with `is_valid: True`) or the error report (with `is_valid: False`). -/
inductive AnalysisReport
  | valid (file_id : String) (file_type : Nat) (file_type_name : String)
      (dc_id : Nat) (access_hash : Nat) (raw_length : Nat)
  | invalid (file_id : String) (error : DecodeError)
  deriving DecidableEq, Repr

/-- The `is_valid` field of the report. -/
def AnalysisReport.isValid : AnalysisReport → Bool
  | .valid .. => true
  | .invalid .. => false

/-- `BotFileIdConverter.analyze_bot_file_id`: run the decoder inside
`try/except` and always return a report dict, never propagating the error. -/
def analyze_bot_file_id (file_id : String) : AnalysisReport :=
  match decode_bot_file_id file_id with
  | .ok d =>
      .valid file_id d.file_type (fileTypeName d.file_type) d.dc_id
        d.access_hash d.raw_data.length
  | .error e => .invalid file_id e

/-- A character of the URL-safe base64 alphabet (including padding), used to
state the spec's alphabet claim. -/
def urlSafeBase64Char (c : Char) : Bool :=
  ('A' ≤ c && c ≤ 'Z') || ('a' ≤ c && c ≤ 'z') || ('0' ≤ c && c ≤ '9') ||
    c = '-' || c = '_' || c = '='

/-- `true` iff the string has a character outside the URL-safe base64 alphabet. -/
def containsNonUrlSafeChar (s : String) : Bool :=
  s.data.any (fun c => ! urlSafeBase64Char c)

/-! ## Helper lemmas -/

/-- If base64 decoding yields a buffer below the 20-byte floor, the decoder
returns the too-short error carrying the actual length. -/
theorem decode_eq_tooShort (s : String) (buf : List Nat)
    (h : pyB64Decode (addPadding s.data) = some buf) (hlen : buf.length < 20) :
    decode_bot_file_id s = .error (.tooShort buf.length) := by
  unfold decode_bot_file_id
  split
  · rename_i heq
    rw [h] at heq
    exact absurd heq (by simp)
  · rename_i decoded heq
    rw [h] at heq
    injection heq with heq'
    subst heq'
    rw [if_pos hlen]

/-- If base64 decoding yields a buffer of at least 20 bytes, the decoder
returns the record with all fields spelled out in terms of the buffer. -/
theorem decode_ok_of_b64 (s : String) (buf : List Nat)
    (h : pyB64Decode (addPadding s.data) = some buf) (hlen : 20 ≤ buf.length) :
    decode_bot_file_id s = .ok
      { file_type := leNat (buf.take 4) &&& 0x7
        file_type_flags := leNat (buf.take 4)
        dc_id := leNat ((buf.drop 4).take 4)
        file_id := leNat ((buf.drop 8).take 8)
        file_id_2 := if 24 ≤ buf.length then leNat ((buf.drop 16).take 8) else 0
        access_hash :=
          if 8 ≤ (buf.drop 24).length then leNat ((buf.drop 24).take 8)
          else if 0 < (buf.drop 24).length then leNat (buf.drop 24)
          else 0
        raw_data := buf } := by
  unfold decode_bot_file_id
  split
  · rename_i heq
    rw [h] at heq
    exact absurd heq (by simp)
  · rename_i decoded heq
    rw [h] at heq
    injection heq with heq'
    subst heq'
    rw [if_neg (by omega)]
    have hwrap : (if 24 < buf.length then buf.drop 24 else []) = buf.drop 24 := by
      rcases Nat.lt_or_ge 24 buf.length with hgt | hle
      · rw [if_pos hgt]
      · rw [if_neg (by omega), List.drop_eq_nil_of_le hle]
    have hfid : (if 24 ≤ buf.length then leNat ((buf.drop 8).take 8)
        else if 16 ≤ buf.length then leNat ((buf.drop 8).take 8) else 0)
        = leNat ((buf.drop 8).take 8) := by
      rcases le_or_lt 24 buf.length with h24 | h24
      · rw [if_pos h24]
      · rw [if_neg (by omega), if_pos (by omega)]
    simp only [hwrap, hfid]

/-- The locator step depends only on the `access_hash`, `file_type` and
`file_id` fields of the decoded record. -/
theorem locate_decoded_congr (d1 d2 : DecodedRecord)
    (hhash : d1.access_hash = d2.access_hash) (htype : d1.file_type = d2.file_type)
    (hid : d1.file_id = d2.file_id) :
    locate_decoded d1 = locate_decoded d2 := by
  unfold locate_decoded
  rw [hhash, htype, hid]

/-! ## Claim theorems -/

/-- C1: for every identifier whose base64-decoded buffer has length ≥ 20,
decode succeeds and returns `type_flags_raw` = little-endian 32-bit at
bytes [0:4), `file_type` = its low 3 bits, `dc_id` = little-endian 32-bit
at [4:8), `primary_id` = little-endian 64-bit at [8:16), and
`secondary_id` = little-endian 64-bit at [16:24) when the buffer is ≥ 24
bytes, else 0. -/
theorem decode_long_buffer_fields (s : String) (buf : List Nat)
    (h : pyB64Decode (addPadding s.data) = some buf) (hlen : 20 ≤ buf.length) :
    (decode_bot_file_id s).map DecodedRecord.file_type_flags = .ok (leNat (buf.take 4)) ∧
    (decode_bot_file_id s).map DecodedRecord.file_type = .ok (leNat (buf.take 4) &&& 0x7) ∧
    (decode_bot_file_id s).map DecodedRecord.dc_id = .ok (leNat ((buf.drop 4).take 4)) ∧
    (decode_bot_file_id s).map DecodedRecord.file_id = .ok (leNat ((buf.drop 8).take 8)) ∧
    (24 ≤ buf.length →
      (decode_bot_file_id s).map DecodedRecord.file_id_2 = .ok (leNat ((buf.drop 16).take 8))) ∧
    (buf.length < 24 → (decode_bot_file_id s).map DecodedRecord.file_id_2 = .ok 0) := by
  rw [decode_ok_of_b64 s buf h hlen]
  refine ⟨rfl, rfl, rfl, rfl, fun h24 => ?_, fun h24 => ?_⟩
  · show Except.ok (if 24 ≤ buf.length then leNat ((buf.drop 16).take 8) else 0) = _
    rw [if_pos h24]
  · show Except.ok (if 24 ≤ buf.length then leNat ((buf.drop 16).take 8) else 0) = _
    rw [if_neg (by omega)]

/-- Witness for C1 at a concrete 32-byte type-4 identifier. -/
theorem decode_long_buffer_fields_witness :
    (decode_bot_file_id "BAAAAAIAAADoAwAAAAAAAAAAAAAAAAAACQMAAAAAAAA=").map
        DecodedRecord.file_type = .ok 4 ∧
    (decode_bot_file_id "BAAAAAIAAADoAwAAAAAAAAAAAAAAAAAACQMAAAAAAAA=").map
        DecodedRecord.dc_id = .ok 2 ∧
    (decode_bot_file_id "BAAAAAIAAADoAwAAAAAAAAAAAAAAAAAACQMAAAAAAAA=").map
        DecodedRecord.file_id = .ok 1000 ∧
    (decode_bot_file_id "BAAAAAIAAADoAwAAAAAAAAAAAAAAAAAACQMAAAAAAAA=").map
        DecodedRecord.file_id_2 = .ok 0 := by
  have h := decode_long_buffer_fields "BAAAAAIAAADoAwAAAAAAAAAAAAAAAAAACQMAAAAAAAA="
    [4,0,0,0,2,0,0,0,232,3,0,0,0,0,0,0,0,0,0,0,0,0,0,0,9,3,0,0,0,0,0,0]
    rfl (by decide)
  refine ⟨?_, ?_, ?_, ?_⟩
  · rw [h.2.1]; exact congrArg Except.ok (by decide)
  · rw [h.2.2.1]; exact congrArg Except.ok (by decide)
  · rw [h.2.2.2.1]; exact congrArg Except.ok (by decide)
  · rw [h.2.2.2.2.1 (by decide)]; exact congrArg Except.ok (by decide)

/-- C5: every identifier whose base64-decoded buffer is strictly shorter
than 20 bytes yields the too-short error carrying the actual decoded
length, never a record. -/
theorem decode_short_buffer_tooShort (s : String) (buf : List Nat)
    (h : pyB64Decode (addPadding s.data) = some buf) (hlen : buf.length < 20) :
    decode_bot_file_id s = .error (.tooShort buf.length) :=
  decode_eq_tooShort s buf h hlen

/-- Witness for C5: `"AAAA"` decodes to 3 bytes and is rejected as too short. -/
theorem decode_short_buffer_tooShort_witness :
    decode_bot_file_id "AAAA" = .error (.tooShort 3) :=
  decode_short_buffer_tooShort "AAAA" [0, 0, 0] rfl (by decide)

/-- C10: decode of the empty string does not fault and returns the
too-short error with decoded length 0. -/
theorem decode_empty_string_tooShort_zero :
    decode_bot_file_id "" = .error (.tooShort 0) := rfl

/-- C6: for every identifier whose decoded buffer has length ≥ 20, the
record's `access_hash` is computed from bytes [24:end): the little-endian
64-bit value of the first 8 bytes if the region has ≥ 8 bytes, the
zero-extended little-endian value of the whole region if it has 1-7 bytes,
and 0 if it is empty. -/
theorem decode_access_hash_region (s : String) (buf : List Nat)
    (h : pyB64Decode (addPadding s.data) = some buf) (hlen : 20 ≤ buf.length) :
    (8 ≤ (buf.drop 24).length →
      (decode_bot_file_id s).map DecodedRecord.access_hash =
        .ok (leNat ((buf.drop 24).take 8))) ∧
    (0 < (buf.drop 24).length → (buf.drop 24).length < 8 →
      (decode_bot_file_id s).map DecodedRecord.access_hash = .ok (leNat (buf.drop 24))) ∧
    ((buf.drop 24).length = 0 →
      (decode_bot_file_id s).map DecodedRecord.access_hash = .ok 0) := by
  rw [decode_ok_of_b64 s buf h hlen]
  refine ⟨fun h8 => ?_, fun h0 h8 => ?_, fun h0 => ?_⟩
  · show Except.ok (if 8 ≤ (buf.drop 24).length then leNat ((buf.drop 24).take 8)
      else if 0 < (buf.drop 24).length then leNat (buf.drop 24) else 0) = _
    rw [if_pos h8]
  · show Except.ok (if 8 ≤ (buf.drop 24).length then leNat ((buf.drop 24).take 8)
      else if 0 < (buf.drop 24).length then leNat (buf.drop 24) else 0) = _
    rw [if_neg (by omega), if_pos h0]
  · show Except.ok (if 8 ≤ (buf.drop 24).length then leNat ((buf.drop 24).take 8)
      else if 0 < (buf.drop 24).length then leNat (buf.drop 24) else 0) = _
    rw [if_neg (by omega), if_neg (by omega)]

/-- Witness for C6 at three identifiers: an 8-byte hash region (777), a
2-byte region (2480 = little-endian of bytes `b0 09`), and an empty region. -/
theorem decode_access_hash_region_witness :
    (decode_bot_file_id "BAAAAAIAAADoAwAAAAAAAAAAAAAAAAAACQMAAAAAAAA=").map
        DecodedRecord.access_hash = .ok 777 ∧
    (decode_bot_file_id "AQAAAAIAAAAqAAAAAAAAAAAAAAAAAAAAsAk").map
        DecodedRecord.access_hash = .ok 2480 ∧
    (decode_bot_file_id "AQAAAAIAAAAqAAAAAAAAAAAAAAAAAAAA").map
        DecodedRecord.access_hash = .ok 0 := by
  have h1 := decode_access_hash_region "BAAAAAIAAADoAwAAAAAAAAAAAAAAAAAACQMAAAAAAAA="
    [4,0,0,0,2,0,0,0,232,3,0,0,0,0,0,0,0,0,0,0,0,0,0,0,9,3,0,0,0,0,0,0] rfl (by decide)
  have h2 := decode_access_hash_region "AQAAAAIAAAAqAAAAAAAAAAAAAAAAAAAAsAk"
    [1,0,0,0,2,0,0,0,42,0,0,0,0,0,0,0,0,0,0,0,0,0,0,0,176,9] rfl (by decide)
  have h3 := decode_access_hash_region "AQAAAAIAAAAqAAAAAAAAAAAAAAAAAAAA"
    [1,0,0,0,2,0,0,0,42,0,0,0,0,0,0,0,0,0,0,0,0,0,0,0] rfl (by decide)
  refine ⟨?_, ?_, ?_⟩
  · rw [h1.1 (by decide)]; exact congrArg Except.ok (by decide)
  · rw [h2.2.1 (by decide) (by decide)]; exact congrArg Except.ok (by decide)
  · rw [h3.2.2 (by decide)]

/-- C2: any decoded record with `access_hash = 0` makes synthesis fail with
the invalid-access-hash error regardless of `file_type`; equivalently every
successfully synthesized locator has a non-zero `access_hash`. -/
theorem synthesize_rejects_zero_access_hash :
    (∀ (s : String) (d : DecodedRecord), decode_bot_file_id s = .ok d →
      d.access_hash = 0 →
      convert_to_telethon_location s = .error .invalidAccessHash) ∧
    (∀ (s : String) (loc : InputFileLocation),
      convert_to_telethon_location s = .ok loc → loc.accessHash ≠ 0) := by
  constructor
  · intro s d hdec h0
    unfold convert_to_telethon_location
    split
    · rename_i e heq
      rw [hdec] at heq
      exact absurd heq (by simp)
    · rename_i d' heq
      rw [hdec] at heq
      injection heq with heq'
      subst heq'
      unfold locate_decoded
      rw [if_pos h0]
  · intro s loc hconv
    unfold convert_to_telethon_location at hconv
    split at hconv
    · exact absurd hconv (by simp)
    · rename_i d heq
      unfold locate_decoded at hconv
      split_ifs at hconv with h0 h1 h2 <;>
        (injection hconv with h'
         subst h'
         exact h0)

/-- Witness for C2: the 24-byte identifier with empty hash region is
rejected with the invalid-access-hash error, and a successfully produced
document locator has a non-zero hash. -/
theorem synthesize_rejects_zero_access_hash_witness :
    convert_to_telethon_location "AQAAAAIAAAAqAAAAAAAAAAAAAAAAAAAA" =
        .error .invalidAccessHash ∧
    (InputFileLocation.document 1000 777 []).accessHash ≠ 0 := by
  constructor
  · exact synthesize_rejects_zero_access_hash.1 "AQAAAAIAAAAqAAAAAAAAAAAAAAAAAAAA"
      ⟨1, 1, 2, 42, 0, 0, [1,0,0,0,2,0,0,0,42,0,0,0,0,0,0,0,0,0,0,0,0,0,0,0]⟩ rfl rfl
  · exact synthesize_rejects_zero_access_hash.2
      "BAAAAAIAAADoAwAAAAAAAAAAAAAAAAAACQMAAAAAAAA=" (.document 1000 777 []) rfl

/-- C3: for a decoded record with non-zero `access_hash`, `file_type = 1`
yields the photo locator `{id = primary_id, access_hash, empty reference}`,
`file_type ∈ {2,3,4,5}` yields the document locator with the same fields,
and any other `file_type` yields the unsupported-file-type error carrying
that value. -/
theorem synthesize_type_dispatch (s : String) (d : DecodedRecord)
    (hdec : decode_bot_file_id s = .ok d) (hhash : d.access_hash ≠ 0) :
    (d.file_type = 1 →
      convert_to_telethon_location s = .ok (.photo d.file_id d.access_hash [])) ∧
    ((d.file_type = 2 ∨ d.file_type = 3 ∨ d.file_type = 4 ∨ d.file_type = 5) →
      convert_to_telethon_location s = .ok (.document d.file_id d.access_hash [])) ∧
    (d.file_type ≠ 1 →
      ¬(d.file_type = 2 ∨ d.file_type = 3 ∨ d.file_type = 4 ∨ d.file_type = 5) →
      convert_to_telethon_location s = .error (.unsupportedFileType d.file_type)) := by
  have hc : convert_to_telethon_location s = locate_decoded d := by
    unfold convert_to_telethon_location
    split
    · rename_i e heq
      rw [hdec] at heq
      exact absurd heq (by simp)
    · rename_i d' heq
      rw [hdec] at heq
      injection heq with heq'
      rw [heq']
  rw [hc]
  unfold locate_decoded
  rw [if_neg hhash]
  refine ⟨fun h1 => ?_, fun h2 => ?_, fun h1 h2 => ?_⟩
  · rw [if_pos h1]
  · rw [if_neg (by rcases h2 with h | h | h | h <;> omega), if_pos h2]
  · rw [if_neg h1, if_neg h2]

/-- Witness for C3: the 32-byte type-4 identifier with hash 777 synthesizes
to the document locator with id 1000, hash 777 and empty reference. -/
theorem synthesize_type_dispatch_witness :
    convert_to_telethon_location "BAAAAAIAAADoAwAAAAAAAAAAAAAAAAAACQMAAAAAAAA=" =
      .ok (.document 1000 777 []) := by
  have h := synthesize_type_dispatch "BAAAAAIAAADoAwAAAAAAAAAAAAAAAAAACQMAAAAAAAA="
    ⟨4, 4, 2, 1000, 0, 777,
      [4,0,0,0,2,0,0,0,232,3,0,0,0,0,0,0,0,0,0,0,0,0,0,0,9,3,0,0,0,0,0,0]⟩
    rfl (by decide)
  exact h.2.1 (by decide)

/-- If the decoder fails, the synthesizer propagates the decode error. -/
theorem convert_eq_of_decode_error (s : String) (e : DecodeError)
    (h : decode_bot_file_id s = .error e) :
    convert_to_telethon_location s = .error (.decodeFailed e) := by
  unfold convert_to_telethon_location
  split
  · rename_i e' heq
    rw [h] at heq
    injection heq with heq'
    rw [heq']
  · rename_i d heq
    rw [h] at heq
    exact absurd heq (by simp)

/-- If the decoder succeeds, the synthesizer runs the locator step on the
decoded record. -/
theorem convert_eq_of_decode_ok (s : String) (d : DecodedRecord)
    (h : decode_bot_file_id s = .ok d) :
    convert_to_telethon_location s = locate_decoded d := by
  unfold convert_to_telethon_location
  split
  · rename_i e heq
    rw [h] at heq
    exact absurd heq (by simp)
  · rename_i d' heq
    rw [h] at heq
    injection heq with heq'
    rw [heq']

/-- C7: a correctly padded identifier (length a multiple of 4, ending in
`k ∈ {1,2,3}` padding characters) decodes field-for-field identically after
those `k` trailing `=` are removed: the decoder restores them by appending
`=` up to the next multiple of 4. -/
theorem decode_padding_tolerance (s : String) (k : Nat)
    (hk1 : 1 ≤ k) (hk3 : k ≤ 3) (hlen : (s.data.length + k) % 4 = 0) :
    decode_bot_file_id s =
      decode_bot_file_id (String.mk (s.data ++ List.replicate k '=')) := by
  have hmod : s.data.length % 4 = 4 - k := by omega
  have h1 : addPadding s.data = s.data ++ List.replicate k '=' := by
    unfold addPadding
    rw [hmod, if_neg (by omega), show 4 - (4 - k) = k from by omega]
  have h2 : addPadding (s.data ++ List.replicate k '=') =
      s.data ++ List.replicate k '=' := by
    unfold addPadding
    rw [List.length_append, List.length_replicate, if_pos (by omega)]
  show (match pyB64Decode (addPadding s.data) with
    | none => Except.error DecodeError.invalidEncoding
    | some decoded => _) = _
  unfold decode_bot_file_id
  rw [h1, show (String.mk (s.data ++ List.replicate k '=')).data =
    s.data ++ List.replicate k '=' from rfl, h2]

/-- Witness for C7: thirty `A`s decode identically with and without the two
trailing padding characters. -/
theorem decode_padding_tolerance_witness :
    decode_bot_file_id (String.mk (List.replicate 30 'A')) =
      decode_bot_file_id (String.mk (List.replicate 30 'A' ++ List.replicate 2 '=')) :=
  decode_padding_tolerance (String.mk (List.replicate 30 'A')) 2
    (by decide) (by decide) (by decide)

/-- C9: synthesis depends on the leading 32-bit flags field only through its
low 3 bits: two identifiers whose decoded buffers have equal length, agree
from byte 4 on, and agree on the low 3 bits of the little-endian value of
bytes [0:4) synthesize to the same outcome (same locator variant and fields,
or same error). -/
theorem synthesize_ignores_high_flag_bits (s1 s2 : String) (b1 b2 : List Nat)
    (h1 : pyB64Decode (addPadding s1.data) = some b1)
    (h2 : pyB64Decode (addPadding s2.data) = some b2)
    (hlen : b1.length = b2.length)
    (htail : b1.drop 4 = b2.drop 4)
    (hflags : leNat (b1.take 4) &&& 0x7 = leNat (b2.take 4) &&& 0x7) :
    convert_to_telethon_location s1 = convert_to_telethon_location s2 := by
  have e24 : b1.drop 24 = b2.drop 24 := by
    have h := congrArg (List.drop 20) htail
    rwa [List.drop_drop, List.drop_drop] at h
  have e8 : b1.drop 8 = b2.drop 8 := by
    have h := congrArg (List.drop 4) htail
    rwa [List.drop_drop, List.drop_drop] at h
  rcases lt_or_le b1.length 20 with hshort | hlong
  · rw [convert_eq_of_decode_error s1 _ (decode_eq_tooShort s1 b1 h1 hshort),
      convert_eq_of_decode_error s2 _ (decode_eq_tooShort s2 b2 h2 (hlen ▸ hshort)),
      hlen]
  · rw [convert_eq_of_decode_ok s1 _ (decode_ok_of_b64 s1 b1 h1 hlong),
      convert_eq_of_decode_ok s2 _ (decode_ok_of_b64 s2 b2 h2 (hlen ▸ hlong))]
    apply locate_decoded_congr
    · show (if 8 ≤ (b1.drop 24).length then leNat ((b1.drop 24).take 8)
        else if 0 < (b1.drop 24).length then leNat (b1.drop 24) else 0) = _
      rw [e24]
    · exact hflags
    · show leNat ((b1.drop 8).take 8) = leNat ((b2.drop 8).take 8)
      rw [e8]

/-- Witness for C9: the 32-byte identifiers with flags 0x04 and 0x0C (bit 3
flipped) synthesize to the same document locator. -/
theorem synthesize_ignores_high_flag_bits_witness :
    convert_to_telethon_location "BAAAAAIAAADoAwAAAAAAAAAAAAAAAAAACQMAAAAAAAA=" =
      convert_to_telethon_location "DAAAAAIAAADoAwAAAAAAAAAAAAAAAAAACQMAAAAAAAA=" :=
  synthesize_ignores_high_flag_bits _ _
    [4,0,0,0,2,0,0,0,232,3,0,0,0,0,0,0,0,0,0,0,0,0,0,0,9,3,0,0,0,0,0,0]
    [12,0,0,0,2,0,0,0,232,3,0,0,0,0,0,0,0,0,0,0,0,0,0,0,9,3,0,0,0,0,0,0]
    rfl rfl rfl rfl (by decide)

/-- C8: the analyzer is total and reports exactly the decode outcome: on
success a report flagged valid with the file-type name, dc_id, access_hash
and decoded byte length; on failure a report flagged invalid carrying the
specific decode error. It never invokes the synthesizer. -/
theorem analyze_reports_decode (s : String) :
    (∀ d : DecodedRecord, decode_bot_file_id s = .ok d →
      analyze_bot_file_id s =
        .valid s d.file_type (fileTypeName d.file_type) d.dc_id d.access_hash
          d.raw_data.length ∧
      (analyze_bot_file_id s).isValid = true) ∧
    (∀ e : DecodeError, decode_bot_file_id s = .error e →
      analyze_bot_file_id s = .invalid s e ∧
      (analyze_bot_file_id s).isValid = false) := by
  constructor
  · intro d hdec
    have ha : analyze_bot_file_id s =
        .valid s d.file_type (fileTypeName d.file_type) d.dc_id d.access_hash
          d.raw_data.length := by
      unfold analyze_bot_file_id
      split
      · rename_i d' heq
        rw [hdec] at heq
        injection heq with heq'
        rw [heq']
      · rename_i e heq
        rw [hdec] at heq
        exact absurd heq (by simp)
    exact ⟨ha, by rw [ha]; rfl⟩
  · intro e hdec
    have ha : analyze_bot_file_id s = .invalid s e := by
      unfold analyze_bot_file_id
      split
      · rename_i d heq
        rw [hdec] at heq
        exact absurd heq (by simp)
      · rename_i e' heq
        rw [hdec] at heq
        injection heq with heq'
        rw [heq']
    exact ⟨ha, by rw [ha]; rfl⟩

/-- Witness for C8: the analyzer reports the minimal valid identifier as a
valid photo with dc_id 2, hash 0 and 24 bytes, and reports garbage input as
invalid with the encoding error. -/
theorem analyze_reports_decode_witness :
    analyze_bot_file_id "AQAAAAIAAAAqAAAAAAAAAAAAAAAAAAAA" =
        .valid "AQAAAAIAAAAqAAAAAAAAAAAAAAAAAAAA" 1 "Photo" 2 0 24 ∧
    (analyze_bot_file_id "AQAAAAIAAAAqAAAAAAAAAAAAAAAAAAAA").isValid = true ∧
    analyze_bot_file_id "not-base64!!" = .invalid "not-base64!!" .invalidEncoding ∧
    (analyze_bot_file_id "not-base64!!").isValid = false := by
  have h1 := (analyze_reports_decode "AQAAAAIAAAAqAAAAAAAAAAAAAAAAAAAA").1
    ⟨1, 1, 2, 42, 0, 0, [1,0,0,0,2,0,0,0,42,0,0,0,0,0,0,0,0,0,0,0,0,0,0,0]⟩ rfl
  have h2 := (analyze_reports_decode "not-base64!!").2 .invalidEncoding rfl
  exact ⟨h1.1, h1.2, h2.1, h2.2⟩

/-- C4 (counterexample): the identifier below contains `+`, a character
outside the URL-safe base64 alphabet, yet decode succeeds and returns a
record, because `base64.b64decode` runs over the standard alphabet and
discards non-alphabet characters instead of rejecting them. -/
theorem decode_nonalphabet_can_succeed :
    containsNonUrlSafeChar "AQAAAAIAAAAqAAAAAAAAAAAAAAAAAAA+" = true ∧
    decode_bot_file_id "AQAAAAIAAAAqAAAAAAAAAAAAAAAAAAA+" =
      .ok ⟨1, 1, 2, 42, 4467570830351532032, 0,
        [1,0,0,0,2,0,0,0,42,0,0,0,0,0,0,0,0,0,0,0,0,0,0,62]⟩ :=
  ⟨rfl, rfl⟩

/-- C4 (amended): decode of the garbage identifier `"not-base64!!"` fails
with the InvalidEncoding error (after discarding, 9 data characters remain,
which is 1 more than a multiple of 4). -/
theorem decode_garbage_invalidEncoding :
    decode_bot_file_id "not-base64!!" = .error .invalidEncoding := rfl
